import Mathlib

/-!
Verification of the sienna_grabber crawl engine
(`src/sienna_grabber/vehicles.py`, with `wafbypass.py` and `config.py`
as external collaborators).

The Python source is shallowly embedded below.  External effects are
modelled as oracle streams in an `Env` record:

* `waf n`    — the value returned by the n-th call to `WAFBypass().run()`
               (the header bundle, modelled as an opaque natural number);
* `clock0`   — the `timer()` reading taken right after the initial WAF
               bypass (`timer_start = timer()`, vehicles.py line 89);
* `clockA i` — the `timer()` reading taken at the top of loop iteration
               `i` (`elapsed_time = timer() - timer_start`, line 100);
* `clockB i` — the `timer()` reading taken right after a WAF refresh in
               iteration `i` (`timer_start = timer()`, line 104);
* `fetch i`  — the wire-level outcome of the single `query_toyota` call
               made in iteration `i`.

Clock readings are integers (seconds).  `sleep(10)` has no observable
effect in this model because every `timer()` reading is already an
oracle input.  A Python exception escaping a function is modelled as
`Except.error`.
-/

namespace SiennaGrabber

/-- One listing row produced by `pd.json_normalize` on an entry of
`result["vehicleSummary"]`: its `vin` key (the dedup identifier,
line 117) and the rest of the attribute bag, modelled opaquely. -/
structure Record where
  vin : ℕ
  attrs : ℕ
  deriving DecidableEq, Repr

/-- The value `resp.json()["data"]["locateVehiclesByZip"]` when the
extraction succeeds and is not JSON `null`: whether the dict has keys
other than `"vehicleSummary"` (for Python truthiness of the dict), and
the `"vehicleSummary"` list when that key is present. -/
structure LocateVal where
  extraKeys : Bool
  vehicleSummary : Option (List Record)
  deriving DecidableEq, Repr

/-- Python truthiness of the `locateVehiclesByZip` dict: a dict is
truthy iff it is nonempty. -/
def lvTruthy (lv : LocateVal) : Bool :=
  lv.extraKeys || lv.vehicleSummary.isSome

/-- Wire-level outcome of one `requests.post` in `query_toyota`
(vehicles.py lines 55-63):
* `netExn` — `requests.post` raises (network error / timeout);
* `badEnvelope` — the response arrives but
  `resp.json()["data"]["locateVehiclesByZip"]` raises (caught by the
  `try` block, lines 62-67);
* `locate r` — the extraction succeeds; `none` models JSON `null`. -/
inductive FetchWire
  | netExn
  | badEnvelope
  | locate (result : Option LocateVal)
  deriving DecidableEq, Repr

/-- `query_toyota` (vehicles.py lines 46-73), classified on the wire
outcome.  `requests.post` sits OUTSIDE the `try` block, so a network
exception propagates to the caller (`Except.error ()`); an extraction
failure is caught and returns `None`; a result that is falsy or lacks
`"vehicleSummary"` returns `None`; otherwise the result is returned. -/
def query_toyota : FetchWire → Except Unit (Option LocateVal)
  | .netExn => .error ()
  | .badEnvelope => .ok none
  | .locate result =>
    match result with
    | none => .ok none
    | some lv =>
      if !(lvTruthy lv) || lv.vehicleSummary.isNone then .ok none
      else .ok (some lv)

/-- `df.drop_duplicates(subset=["vin"])` with the pandas default
`keep="first"`: keep the first row seen for each vin, in order.
`seen` is the set of vins already kept. -/
def dropDupVinsAux (seen : List ℕ) : List Record → List Record
  | [] => []
  | r :: rs =>
    if r.vin ∈ seen then dropDupVinsAux seen rs
    else r :: dropDupVinsAux (r.vin :: seen) rs

/-- `df.drop_duplicates(subset=["vin"], inplace=True)` (vehicles.py
line 117). -/
def dropDupVins (df : List Record) : List Record :=
  dropDupVinsAux [] df

/-- Lines 110-114: `if result and "vehicleSummary" in result:` then
`df = pd.concat([df, pd.json_normalize(result["vehicleSummary"])])`. -/
def merge_page (df : List Record) (result : Option LocateVal) : List Record :=
  match result with
  | none => df
  | some lv =>
    if lvTruthy lv && lv.vehicleSummary.isSome then
      df ++ lv.vehicleSummary.getD []
    else df

/-- Oracle streams standing for the external world (see module
comment). -/
structure Env where
  waf : ℕ → ℕ
  clock0 : ℤ
  clockA : ℕ → ℤ
  clockB : ℕ → ℤ
  fetch : ℕ → FetchWire

/-- The local state of the `while True` loop in `get_all_pages`:
`df`, `page_number`, `headers`, `timer_start`, `last_run_counter`,
plus two instrumentation counters that index the oracle streams:
`wafCalls` counts calls to `WAFBypass().run()` so far and `iter`
counts loop iterations (= `query_toyota` calls) so far. -/
structure LoopState where
  df : List Record
  page_number : ℕ
  headers : ℕ
  timer_start : ℤ
  last_run_counter : ℕ
  wafCalls : ℕ
  iter : ℕ
  deriving Repr

/-- The renewal block, vehicles.py lines 99-104: if more than
`4 * 60` seconds elapsed since `timer_start`, rerun the WAF bypass and
reset the timer; everything else is untouched. -/
def renew_check (env : Env) (s : LoopState) : LoopState :=
  if 4 * 60 < env.clockA s.iter - s.timer_start then
    { s with headers := env.waf s.wafCalls,
             timer_start := env.clockB s.iter,
             wafCalls := s.wafCalls + 1 }
  else s

/-- Outcome of one pass through the loop body: `done` models a
`break` returning the dataframe, `exn` an exception propagating out of
the loop, `next` the `continue` with the updated state. -/
inductive StepResult
  | done (df : List Record)
  | exn
  | next (s : LoopState)
  deriving Repr

/-- One pass through the body of the `while True` loop of
`get_all_pages` (vehicles.py lines 94-130), in source order:
1. `if page_number > 40: break`;
2. the renewal block (`renew_check`);
3. `result = query_toyota(...)` — a network exception propagates;
4. conditional concat (`merge_page`) then unconditional
   `drop_duplicates` on vin;
5. `if len(df) == last_run_counter: break` (convergence);
6. otherwise `last_run_counter = len(df)`, `page_number += 1`,
   `sleep(10)`, `continue`. -/
def crawl_step (env : Env) (s : LoopState) : StepResult :=
  if 40 < s.page_number then .done s.df
  else
    let s1 := renew_check env s
    match query_toyota (env.fetch s1.iter) with
    | .error _ => .exn
    | .ok result =>
      let df := dropDupVins (merge_page s1.df result)
      if df.length = s1.last_run_counter then .done df
      else .next { s1 with df := df,
                           last_run_counter := df.length,
                           page_number := s1.page_number + 1,
                           iter := s1.iter + 1 }

/-- The `while True` loop, driven by fuel.  `page_number` starts at 1
and increases by 1 each `next`, and the loop breaks as soon as
`page_number > 40`, so from the initial state at most 41 entries into
the body occur; fuel 41 therefore never runs out and the fuel-0
default (returning the current dataframe) is unreachable from
`get_all_pages`. -/
def get_all_pages_loop (env : Env) : ℕ → LoopState → Except Unit (List Record)
  | 0, s => .ok s.df
  | fuel + 1, s =>
    match crawl_step env s with
    | .done df => .ok df
    | .exn => .error ()
    | .next s1 => get_all_pages_loop env fuel s1

/-- The state after vehicles.py lines 78-92: empty dataframe, page 1,
headers from the initial WAF bypass (`waf 0`), timer started at
`clock0`, `last_run_counter = 0`. -/
def initState (env : Env) : LoopState :=
  { df := [], page_number := 1, headers := env.waf 0,
    timer_start := env.clock0, last_run_counter := 0,
    wafCalls := 1, iter := 0 }

/-- `get_all_pages` (vehicles.py lines 76-132). -/
def get_all_pages (env : Env) : Except Unit (List Record) :=
  get_all_pages_loop env 41 (initState env)

/-! ### `get_vehicles_query` and its `functools.cache` wrapper -/

/-- Inputs of `get_vehicles_query` (vehicles.py lines 23-35): the
contents of the template file, the three environment parameters, and the
stream of `uuid.uuid4()` draws (`uuids n` is the n-th draw). -/
structure QueryEnv where
  template : String
  zipcode : String
  model : String
  distance : String
  uuids : ℕ → String

/-- The body of `get_vehicles_query` (lines 26-35): the four
`str.replace` substitutions applied to the template, with the lead id
from the first `uuid.uuid4()` draw. -/
def build_query (qe : QueryEnv) : String :=
  ((((qe.template.replace "ZIPCODE" qe.zipcode).replace
      "MODELCODE" qe.model).replace
      "DISTANCEMILES" qe.distance).replace
      "LEADIDUUID" (qe.uuids 0))

/-- One call to the `@cache`-decorated zero-argument
`get_vehicles_query`: on a miss (`none`) compute the body and store it,
on a hit return the stored string. -/
def cacheStep (qe : QueryEnv) : Option String → String × Option String
  | none => (build_query qe, some (build_query qe))
  | some q => (q, some q)

/-- Result and cache state of the n-th call (0-based) to
`get_vehicles_query` within one process, starting from an empty
cache. -/
def nthCall (qe : QueryEnv) : ℕ → String × Option String
  | 0 => cacheStep qe none
  | n + 1 => cacheStep qe (nthCall qe n).2

/-- `query.replace("PAGENUMBER", str(page_number))` performed on a
local copy inside `query_toyota` (vehicles.py line 50). -/
def queryForPage (query : String) (page_number : ℕ) : String :=
  query.replace "PAGENUMBER" (toString page_number)

/-! ### `update_vehicles` -/

/-- Python truthiness of `os.environ.get(...)`: `None` (unset) and the
empty string are falsy. -/
def truthyOpt : Option String → Bool
  | none => false
  | some s => !(s == "")

/-- How a run of `update_vehicles` can fail: `exit msg` models
`sys.exit(msg)`, `crawlExn` an exception propagating out of
`get_all_pages`. -/
inductive RunError
  | exit (msg : String)
  | crawlExn
  deriving DecidableEq, Repr

/-- `update_vehicles` (vehicles.py lines 135-156): validate the three
environment parameters in order, exiting before any network activity
when one is missing or empty; then crawl; on an empty dataframe print
and return (`ok none`); otherwise hand the dataframe to the writers
(`ok (some df)`). -/
def update_vehicles (model zipcode distance : Option String) (env : Env) :
    Except RunError (Option (List Record)) :=
  if !(truthyOpt model) then
    .error (.exit "Set the MODEL environment variable first")
  else if !(truthyOpt zipcode) then
    .error (.exit "Set the ZIPCODE environment variable first")
  else if !(truthyOpt distance) then
    .error (.exit "Set the DISTANCE environment variable first")
  else
    match get_all_pages env with
    | .error _ => .error .crawlExn
    | .ok df => if df.isEmpty then .ok none else .ok (some df)

/-! ### `format_options` -/

/-- One entry of the `Options` column value: its `marketingName` and
`marketingLongName` keys (`none` = key absent). -/
structure OptionEntry where
  marketingName : Option String
  marketingLongName : Option String
  deriving DecidableEq, Repr

/-- The name `format_options` picks from one entry (vehicles.py lines
268-274): `marketingName` when `item.get("marketingName")` is truthy
(present and nonempty), else `marketingLongName` when truthy, else
skip the entry. -/
def entryName (item : OptionEntry) : Option String :=
  if truthyOpt item.marketingName then item.marketingName
  else if truthyOpt item.marketingLongName then item.marketingLongName
  else none

/-- The names collected into the `options` set, in input order. -/
def selectedNames (options_raw : List OptionEntry) : List String :=
  options_raw.filterMap entryName

/-- `sorted(options)`: the Python lexicographic sort of the distinct
collected names (the set has no duplicates; any correct sort of a
duplicate-free list under a linear order yields the same list). -/
def sortStrings (l : List String) : List String :=
  List.insertionSort (fun a b => a ≤ b) l

/-- `format_options` (vehicles.py lines 265-276):
`" | ".join(sorted(options))` over the set of collected names. -/
def format_options (options_raw : List OptionEntry) : String :=
  String.intercalate " | " (sortStrings (selectedNames options_raw).dedup)

/-! ### Proof-side helper: the set of vins kept by `dropDupVinsAux` -/

/-- The `seen` set after `dropDupVinsAux seen xs` has processed `xs`:
`seen` extended by the vins of `xs` not already in it. -/
def seenAfter (seen : List ℕ) : List Record → List ℕ
  | [] => seen
  | r :: rs =>
    if r.vin ∈ seen then seenAfter seen rs
    else seenAfter (r.vin :: seen) rs

/-! ### Concrete fixtures used to exercise the definitions -/

/-- An environment with trivial clocks and WAF headers and a given
fetch trace: the crawl behaviour then depends only on the fetch
outcomes (no renewal ever triggers, since every clock reads 0). -/
def envStub (f : ℕ → FetchWire) : Env :=
  { waf := fun _ => 0, clock0 := 0, clockA := fun _ => 0,
    clockB := fun _ => 0, fetch := f }

/-- Every page fetch yields an empty result (`query_toyota` returns
`None`). -/
def envEmpty : Env := envStub (fun _ => .locate none)

/-- Page 1 succeeds with the vin-1 record, page 2 is blocked/empty,
every later page would succeed with the (new) vin-2 record. -/
def envBlockedMid : Env :=
  envStub (fun i =>
    match i with
    | 0 => .locate (some ⟨false, some [⟨1, 0⟩]⟩)
    | 1 => .locate none
    | _ => .locate (some ⟨false, some [⟨2, 0⟩]⟩))

/-- Every page fetch raises a network exception. -/
def envNetExn : Env := envStub (fun _ => .netExn)

/-- Every page fetch succeeds with one record whose vin is new
(page i+1 yields vin i), so convergence never fires. -/
def envAlwaysNew : Env :=
  envStub (fun i => .locate (some ⟨false, some [⟨i, 0⟩]⟩))

/-- An environment whose first clock reading is already past the
4-minute renewal threshold. -/
def envLate : Env :=
  { waf := fun n => n, clock0 := 0, clockA := fun _ => 300,
    clockB := fun _ => 301, fetch := fun _ => .locate none }

/-- The loop state after a first round that accumulated the vin-1
record (as reached from `envBlockedMid`). -/
def sAfterRound1 : LoopState :=
  { df := [⟨1, 0⟩], page_number := 2, headers := 0, timer_start := 0,
    last_run_counter := 1, wafCalls := 1, iter := 1 }

/-- An options entry with a truthy `marketingName`. -/
def entA : OptionEntry := ⟨some "A", none⟩

/-! ## Helper lemmas -/

lemma renew_check_df (env : Env) (s : LoopState) :
    (renew_check env s).df = s.df := by
  unfold renew_check; split <;> rfl

lemma renew_check_page (env : Env) (s : LoopState) :
    (renew_check env s).page_number = s.page_number := by
  unfold renew_check; split <;> rfl

lemma renew_check_last (env : Env) (s : LoopState) :
    (renew_check env s).last_run_counter = s.last_run_counter := by
  unfold renew_check; split <;> rfl

lemma renew_check_iter (env : Env) (s : LoopState) :
    (renew_check env s).iter = s.iter := by
  unfold renew_check; split <;> rfl

lemma query_toyota_ok_of_ne (w : FetchWire) (h : w ≠ .netExn) :
    ∃ r, query_toyota w = .ok r := by
  cases w with
  | netExn => exact absurd rfl h
  | badEnvelope => exact ⟨none, rfl⟩
  | locate result =>
    cases result with
    | none => exact ⟨none, rfl⟩
    | some lv =>
      by_cases hc : (!(lvTruthy lv) || lv.vehicleSummary.isNone) = true
      · exact ⟨none, by simp [query_toyota, hc]⟩
      · exact ⟨some lv, by simp [query_toyota, hc]⟩

lemma merge_page_eq_append (df : List Record) (r : Option LocateVal) :
    ∃ extra, merge_page df r = df ++ extra := by
  match r with
  | none => exact ⟨[], by simp [merge_page]⟩
  | some lv =>
    by_cases hc : (lvTruthy lv && lv.vehicleSummary.isSome) = true
    · exact ⟨lv.vehicleSummary.getD [], by simp [merge_page, hc]⟩
    · exact ⟨[], by simp [merge_page, hc]⟩

lemma mem_seenAfter (xs : List Record) :
    ∀ (seen : List ℕ) (v : ℕ),
      v ∈ seenAfter seen xs ↔ v ∈ seen ∨ v ∈ xs.map Record.vin := by
  induction xs with
  | nil => intro seen v; simp [seenAfter]
  | cons r rs ih =>
    intro seen v
    by_cases h : r.vin ∈ seen
    · simp only [seenAfter, if_pos h, ih, List.map_cons, List.mem_cons]
      constructor
      · rintro (hv | hv)
        · exact Or.inl hv
        · exact Or.inr (Or.inr hv)
      · rintro (hv | rfl | hv)
        · exact Or.inl hv
        · exact Or.inl h
        · exact Or.inr hv
    · simp only [seenAfter, if_neg h, ih, List.map_cons, List.mem_cons]
      tauto

lemma dropDupVinsAux_append (xs : List Record) :
    ∀ (ys : List Record) (seen : List ℕ),
      dropDupVinsAux seen (xs ++ ys) =
        dropDupVinsAux seen xs ++ dropDupVinsAux (seenAfter seen xs) ys := by
  induction xs with
  | nil => intro ys seen; simp [dropDupVinsAux, seenAfter]
  | cons r rs ih =>
    intro ys seen
    by_cases h : r.vin ∈ seen <;>
      simp [dropDupVinsAux, seenAfter, h, ih]

lemma dropDupVinsAux_eq_self (xs : List Record) :
    ∀ (seen : List ℕ), (xs.map Record.vin).Nodup →
      (∀ r ∈ xs, r.vin ∉ seen) → dropDupVinsAux seen xs = xs := by
  induction xs with
  | nil => intro seen _ _; rfl
  | cons r rs ih =>
    intro seen hnd hdisj
    have hr : r.vin ∉ seen := hdisj r (List.mem_cons_self r rs)
    simp only [List.map_cons, List.nodup_cons] at hnd
    simp only [dropDupVinsAux, if_neg hr]
    congr 1
    apply ih _ hnd.2
    intro x hx hmem
    rcases List.mem_cons.mp hmem with heq | hseen
    · exact hnd.1 (heq ▸ List.mem_map_of_mem Record.vin hx)
    · exact hdisj x (List.mem_cons_of_mem _ hx) hseen

lemma dropDupVinsAux_nodup (xs : List Record) :
    ∀ (seen : List ℕ),
      ((dropDupVinsAux seen xs).map Record.vin).Nodup ∧
        ∀ v ∈ (dropDupVinsAux seen xs).map Record.vin, v ∉ seen := by
  induction xs with
  | nil => intro seen; simp [dropDupVinsAux]
  | cons r rs ih =>
    intro seen
    by_cases h : r.vin ∈ seen
    · simpa only [dropDupVinsAux, if_pos h] using ih seen
    · simp only [dropDupVinsAux, if_neg h]
      obtain ⟨hnd, hmem⟩ := ih (r.vin :: seen)
      refine ⟨?_, ?_⟩
      · simp only [List.map_cons, List.nodup_cons]
        exact ⟨fun hc => (hmem _ hc) (List.mem_cons_self _ _), hnd⟩
      · intro v hv
        simp only [List.map_cons, List.mem_cons] at hv
        rcases hv with rfl | hv
        · exact h
        · exact fun hvseen => hmem v hv (List.mem_cons_of_mem _ hvseen)

lemma dropDupVins_nodup (df : List Record) :
    ((dropDupVins df).map Record.vin).Nodup :=
  (dropDupVinsAux_nodup df []).1

lemma dropDupVins_eq_self (df : List Record)
    (h : (df.map Record.vin).Nodup) : dropDupVins df = df :=
  dropDupVinsAux_eq_self df [] h (by simp)

lemma dropDupVins_append_left (df ys : List Record)
    (h : (df.map Record.vin).Nodup) :
    dropDupVins (df ++ ys) = df ++ dropDupVinsAux (seenAfter [] df) ys := by
  unfold dropDupVins
  rw [dropDupVinsAux_append, dropDupVinsAux_eq_self df [] h (by simp)]

lemma merge_dedup_grows (df : List Record) (r : Option LocateVal)
    (hnd : (df.map Record.vin).Nodup) :
    df.length ≤ (dropDupVins (merge_page df r)).length ∧
      ((dropDupVins (merge_page df r)).map Record.vin).Nodup := by
  obtain ⟨extra, hx⟩ := merge_page_eq_append df r
  rw [hx]
  refine ⟨?_, dropDupVins_nodup _⟩
  rw [dropDupVins_append_left df extra hnd]
  simp

lemma loop_break_on_eq (env : Env) (s : LoopState) (fuel : ℕ)
    (r : Option LocateVal)
    (hpage : s.page_number ≤ 40)
    (hq : query_toyota (env.fetch s.iter) = .ok r)
    (hconv : (dropDupVins (merge_page s.df r)).length = s.last_run_counter) :
    get_all_pages_loop env (fuel + 1) s =
      .ok (dropDupVins (merge_page s.df r)) := by
  have hnot : ¬ 40 < s.page_number := by omega
  simp only [get_all_pages_loop, crawl_step, if_neg hnot,
    renew_check_iter, renew_check_df, renew_check_last, hq, hconv, if_pos]

/-! ## Claim theorems -/

/-- C1: in any iteration of the `get_all_pages` loop that is below the
page ceiling and whose fetch does not raise, if merging the fetched
page results and dropping duplicate vins leaves the accumulated record
count equal to `last_run_counter` (the count recorded after the
previous round), the loop breaks at that iteration and returns the
accumulated dataframe.  In particular, when round k+1 yields only
record identifiers already accumulated in round k (or nothing), the
loop terminates after round k+1 with unchanged accumulated size. -/
theorem c1_convergence_terminates (env : Env) (s : LoopState) (fuel : ℕ)
    (r : Option LocateVal)
    (hpage : s.page_number ≤ 40)
    (hq : query_toyota (env.fetch s.iter) = .ok r)
    (hconv : (dropDupVins (merge_page s.df r)).length = s.last_run_counter) :
    get_all_pages_loop env (fuel + 1) s =
      .ok (dropDupVins (merge_page s.df r)) :=
  loop_break_on_eq env s fuel r hpage hq hconv

/-- C1 witness: from the initial state, a first page with an empty
result converges immediately and the crawl returns the empty
dataframe. -/
theorem c1_convergence_terminates_witness :
    get_all_pages envEmpty = .ok [] :=
  c1_convergence_terminates envEmpty (initState envEmpty) 40 none
    (by decide) rfl rfl

/-- C2 counterexample: with page 1 succeeding (vin 1), page 2
blocked/empty, and page 3 ready to succeed with the new vin-2 record,
`get_all_pages` stops at page 2 and returns only the vin-1 record: the
blocked page contributes zero new records, which triggers the
convergence check, so the crawl does NOT continue to later pages and
the final set misses the record of the later successful page. -/
theorem c2_blocked_counterexample :
    get_all_pages envBlockedMid = .ok [⟨1, 0⟩] ∧
      (⟨2, 0⟩ : Record) ∉ ([⟨1, 0⟩] : List Record) ∧
      query_toyota (envBlockedMid.fetch 2) = .ok (some ⟨false, some [⟨2, 0⟩]⟩) :=
  ⟨rfl, by decide, rfl⟩

/-- C2 amended: a `Blocked`/`EmptyOrMalformed` page (one on which
`query_toyota` returns `None`) does not raise an error and contributes
zero new records; but because the loop invariant makes
`last_run_counter` equal the accumulated count after every completed
round, the zero-growth round triggers the convergence check and the
crawl terminates at the bad page, returning exactly the records
accumulated from the successful pages before it. -/
theorem c2_blocked_terminates (env : Env) (s : LoopState) (fuel : ℕ)
    (hpage : s.page_number ≤ 40)
    (hq : query_toyota (env.fetch s.iter) = .ok none)
    (hnd : (s.df.map Record.vin).Nodup)
    (hlast : s.last_run_counter = s.df.length) :
    get_all_pages_loop env (fuel + 1) s = .ok s.df := by
  have hmerge : merge_page s.df none = s.df := rfl
  have h1 : dropDupVins (merge_page s.df none) = s.df := by
    rw [hmerge, dropDupVins_eq_self s.df hnd]
  have := loop_break_on_eq env s fuel none hpage hq (by rw [h1, hlast])
  rw [h1] at this
  exact this

/-- C2 amended witness: from the state reached after the successful
first page of `envBlockedMid`, the blocked second page ends the crawl
with the previously accumulated vin-1 record. -/
theorem c2_blocked_terminates_witness :
    get_all_pages_loop envBlockedMid 40 sAfterRound1 = .ok [⟨1, 0⟩] :=
  c2_blocked_terminates envBlockedMid sAfterRound1 39
    (by decide) rfl (by decide) rfl

/-- C3 counterexample: a crawl whose first page fetch raises a network
exception aborts with that exception (`Except.error`): the exception
escapes `query_toyota` (where `requests.post` sits outside the `try`
block) and `get_all_pages` (which wraps the call in no handler), with
no retry of the page — refuting the claim that no transient network
failure escapes the loop unhandled. -/
theorem c3_netexn_counterexample :
    get_all_pages envNetExn = .error () := rfl

/-- C3 amended: a network/timeout exception raised by `requests.post`
propagates out of `query_toyota` and immediately aborts the
`get_all_pages` loop — no retry of the page is attempted and later
pages are never fetched; only a failure of the envelope extraction
`resp.json()["data"]["locateVehiclesByZip"]` is caught, returning
`None`, which the loop treats as zero new records. -/
theorem c3_netexn_aborts (env : Env) (s : LoopState) (fuel : ℕ)
    (hpage : s.page_number ≤ 40)
    (hfetch : env.fetch s.iter = .netExn) :
    get_all_pages_loop env (fuel + 1) s = .error () ∧
      query_toyota FetchWire.badEnvelope = .ok none := by
  have hnot : ¬ 40 < s.page_number := by omega
  refine ⟨?_, rfl⟩
  simp only [get_all_pages_loop, crawl_step, if_neg hnot,
    renew_check_iter, hfetch, query_toyota]

/-- C3 amended witness: the all-netExn environment from its initial
state. -/
theorem c3_netexn_aborts_witness :
    get_all_pages envNetExn = .error () ∧
      query_toyota FetchWire.badEnvelope = .ok none :=
  c3_netexn_aborts envNetExn (initState envNetExn) 40 (by decide) rfl

/-- C4: whenever the elapsed time since `timer_start` exceeds the
4-minute renewal threshold (itself below the 5-minute WAF validity
window), the renewal block reruns the WAF bypass (taking the next
header bundle from the provider), resets the session timer to the
post-renewal clock reading, and increments the bypass-call counter —
while leaving the current page number, the accumulated dataframe, and
the convergence counter untouched: renewal never resets the page index
and never drops records. -/
theorem c4_renewal_preserves_progress (env : Env) (s : LoopState)
    (helapsed : 4 * 60 < env.clockA s.iter - s.timer_start) :
    (renew_check env s).headers = env.waf s.wafCalls ∧
      (renew_check env s).timer_start = env.clockB s.iter ∧
      (renew_check env s).wafCalls = s.wafCalls + 1 ∧
      (renew_check env s).page_number = s.page_number ∧
      (renew_check env s).df = s.df ∧
      (renew_check env s).last_run_counter = s.last_run_counter ∧
      (renew_check env s).iter = s.iter := by
  unfold renew_check
  rw [if_pos helapsed]
  exact ⟨rfl, rfl, rfl, rfl, rfl, rfl, rfl⟩

/-- C4 witness: a clock already past the threshold at the initial
state. -/
theorem c4_renewal_preserves_progress_witness :
    (renew_check envLate (initState envLate)).headers =
        envLate.waf (initState envLate).wafCalls ∧
      (renew_check envLate (initState envLate)).timer_start =
        envLate.clockB (initState envLate).iter ∧
      (renew_check envLate (initState envLate)).wafCalls =
        (initState envLate).wafCalls + 1 ∧
      (renew_check envLate (initState envLate)).page_number =
        (initState envLate).page_number ∧
      (renew_check envLate (initState envLate)).df =
        (initState envLate).df ∧
      (renew_check envLate (initState envLate)).last_run_counter =
        (initState envLate).last_run_counter ∧
      (renew_check envLate (initState envLate)).iter =
        (initState envLate).iter :=
  c4_renewal_preserves_progress envLate (initState envLate) (by decide)

/-- C7 counterexample: the dedup step keeps the FIRST row seen for a
vin (pandas `drop_duplicates` default `keep="first"`), so re-merging a
record whose vin is already accumulated keeps the previously stored
attributes instead of overwriting them with the newly merged ones —
refuting last-write-wins. -/
theorem c7_last_write_counterexample :
    dropDupVins ([⟨1, 10⟩] ++ [⟨1, 20⟩]) = [⟨1, 10⟩] ∧
      dropDupVins ([⟨1, 10⟩] ++ [⟨1, 20⟩]) ≠ [⟨1, 20⟩] := by
  decide

/-- C7 amended: merging a record whose vin is already present in the
(vin-deduplicated) accumulated frame leaves the frame entirely
unchanged — the size is unchanged and the stored attributes remain
those first merged (first-write-wins, pandas `keep="first"`); in
particular merging the same record twice leaves both size and
attribute content identical to a single merge. -/
theorem c7_first_write_wins (df : List Record) (r : Record)
    (hnd : (df.map Record.vin).Nodup)
    (hmem : r.vin ∈ df.map Record.vin) :
    dropDupVins (df ++ [r]) = df := by
  rw [dropDupVins_append_left df [r] hnd]
  have hseen : r.vin ∈ seenAfter [] df :=
    (mem_seenAfter df [] r.vin).mpr (Or.inr hmem)
  simp [dropDupVinsAux, hseen]

/-- C7 amended witness: re-merging a changed payload for vin 1 leaves
the stored row as first merged. -/
theorem c7_first_write_wins_witness :
    dropDupVins ([⟨1, 10⟩] ++ [⟨1, 20⟩]) = [⟨1, 10⟩] :=
  c7_first_write_wins [⟨1, 10⟩] ⟨1, 20⟩ (by decide) (by decide)

lemma loop_congr (fuel : ℕ) :
    ∀ (env env' : Env) (s : LoopState),
      env'.waf = env.waf →
      (∀ i, i < 40 → env'.clockA i = env.clockA i ∧
        env'.clockB i = env.clockB i ∧ env'.fetch i = env.fetch i) →
      s.iter + 1 = s.page_number →
      get_all_pages_loop env' fuel s = get_all_pages_loop env fuel s := by
  induction fuel with
  | zero => intro env env' s _ _ _; rfl
  | succ fuel ih =>
    intro env env' s hw hag hinv
    by_cases hp : 40 < s.page_number
    · simp only [get_all_pages_loop, crawl_step, if_pos hp]
    · have hiter : s.iter < 40 := by omega
      obtain ⟨hA, hB, hF⟩ := hag s.iter hiter
      have hrenew : renew_check env' s = renew_check env s := by
        unfold renew_check
        rw [hA, hB, hw]
      simp only [get_all_pages_loop, crawl_step, if_neg hp, hrenew,
        renew_check_iter, hF]
      cases hq : query_toyota (env.fetch s.iter) with
      | error e => rfl
      | ok result =>
        dsimp only
        by_cases hc :
            (dropDupVins (merge_page (renew_check env s).df result)).length =
              (renew_check env s).last_run_counter
        · rw [if_pos hc]
        · rw [if_neg hc]
          dsimp only
          apply ih
          · exact hw
          · exact hag
          · simp only [renew_check_page]
            omega

lemma loop_ok_of_no_netExn (fuel : ℕ) :
    ∀ (env : Env) (s : LoopState),
      (∀ i, i < 40 → env.fetch i ≠ .netExn) →
      s.iter + 1 = s.page_number →
      ∃ df, get_all_pages_loop env fuel s = .ok df := by
  induction fuel with
  | zero => intro env s _ _; exact ⟨s.df, rfl⟩
  | succ fuel ih =>
    intro env s hnf hinv
    by_cases hp : 40 < s.page_number
    · exact ⟨s.df, by simp only [get_all_pages_loop, crawl_step, if_pos hp]⟩
    · have hiter : s.iter < 40 := by omega
      obtain ⟨r, hq⟩ := query_toyota_ok_of_ne _ (hnf s.iter hiter)
      simp only [get_all_pages_loop, crawl_step, if_neg hp,
        renew_check_iter, hq]
      by_cases hc :
          (dropDupVins (merge_page (renew_check env s).df r)).length =
            (renew_check env s).last_run_counter
      · exact ⟨_, by rw [if_pos hc]⟩
      · rw [if_neg hc]
        apply ih
        · exact hnf
        · simp only [renew_check_iter, renew_check_page]
          omega

/-- C5: the crawl consults at most the first 40 entries of the fetch
trace — two environments that share the WAF stream and the clock and
fetch oracles for iterations 0..39 produce identical crawls, whatever
happens beyond the ceiling (so even a fetcher that keeps producing new
unique records forever is cut off after 40 pages); and when none of
those at-most-40 fetches raises a network exception, the crawl
terminates normally with an accumulated dataframe (`.ok`), not an
error, even if the ceiling is reached without convergence. -/
theorem c5_page_ceiling (env env' : Env)
    (hw : env'.waf = env.waf)
    (h0 : env'.clock0 = env.clock0)
    (hag : ∀ i, i < 40 → env'.clockA i = env.clockA i ∧
      env'.clockB i = env.clockB i ∧ env'.fetch i = env.fetch i)
    (hnf : ∀ i, i < 40 → env.fetch i ≠ FetchWire.netExn) :
    get_all_pages env' = get_all_pages env ∧
      ∃ df, get_all_pages env = .ok df := by
  constructor
  · have hinit : initState env' = initState env := by
      unfold initState
      rw [hw, h0]
    unfold get_all_pages
    rw [hinit]
    exact loop_congr 41 env env' (initState env) hw hag rfl
  · exact loop_ok_of_no_netExn 41 env (initState env) hnf rfl

/-- C5 witness: a fetcher producing a brand-new vin on every page. -/
theorem c5_page_ceiling_witness :
    get_all_pages envAlwaysNew = get_all_pages envAlwaysNew ∧
      ∃ df, get_all_pages envAlwaysNew = .ok df :=
  c5_page_ceiling envAlwaysNew envAlwaysNew rfl rfl
    (fun _ _ => ⟨rfl, rfl, rfl⟩) (fun _ _ => by simp [envAlwaysNew, envStub])

/-- C6: the accumulated set only ever grows.  The loop updates the
dataframe exclusively through the merge-then-dedup step
`dropDupVins (merge_page df result)` (vehicles.py lines 110-117), and
on a vin-deduplicated frame — which every reachable frame is, being
the output of `dropDupVins` or the empty initial frame — that step
appends the page rows and re-dedups, so the resulting size is never
smaller and the result is again vin-deduplicated: a crawl terminated
at any iteration returns a valid (possibly incomplete) deduplicated
frame, never a shrunken one. -/
theorem c6_accumulator_monotone (df : List Record) (result : Option LocateVal)
    (hnd : (df.map Record.vin).Nodup) :
    df.length ≤ (dropDupVins (merge_page df result)).length ∧
      ((dropDupVins (merge_page df result)).map Record.vin).Nodup :=
  merge_dedup_grows df result hnd

/-- C6 witness: merging a page with one duplicate and one new vin onto
a two-record frame. -/
theorem c6_accumulator_monotone_witness :
    ([⟨1, 0⟩, ⟨2, 0⟩] : List Record).length ≤
        (dropDupVins (merge_page [⟨1, 0⟩, ⟨2, 0⟩]
          (some ⟨false, some [⟨1, 5⟩, ⟨3, 0⟩]⟩))).length ∧
      ((dropDupVins (merge_page [⟨1, 0⟩, ⟨2, 0⟩]
          (some ⟨false, some [⟨1, 5⟩, ⟨3, 0⟩]⟩))).map Record.vin).Nodup :=
  c6_accumulator_monotone [⟨1, 0⟩, ⟨2, 0⟩]
    (some ⟨false, some [⟨1, 5⟩, ⟨3, 0⟩]⟩) (by decide)

/-- C8: when any of the three required environment parameters is
missing (`None`) or empty, `update_vehicles` exits with the
corresponding configuration message before any network activity — its
result is the exit error and is the same for every environment oracle,
i.e. neither the WAF bypass (credential acquisition) nor any page
fetch is consulted. -/
theorem c8_config_validation (model zipcode distance : Option String)
    (env env' : Env)
    (hmiss : truthyOpt model = false ∨ truthyOpt zipcode = false ∨
      truthyOpt distance = false) :
    (∃ msg, update_vehicles model zipcode distance env =
      .error (.exit msg)) ∧
      update_vehicles model zipcode distance env =
        update_vehicles model zipcode distance env' := by
  by_cases hm : truthyOpt model
  · by_cases hz : truthyOpt zipcode
    · by_cases hd : truthyOpt distance
      · exfalso
        rcases hmiss with h | h | h <;> simp_all
      · refine ⟨⟨"Set the DISTANCE environment variable first", ?_⟩, ?_⟩ <;>
          simp [update_vehicles, hm, hz, hd]
    · refine ⟨⟨"Set the ZIPCODE environment variable first", ?_⟩, ?_⟩ <;>
        simp [update_vehicles, hm, hz]
  · refine ⟨⟨"Set the MODEL environment variable first", ?_⟩, ?_⟩ <;>
      simp only [update_vehicles, hm, Bool.not_false, if_pos]

/-- C8 witness: with `MODEL` unset, two environments that behave very
differently at the network level (one always raising, one always
succeeding) give the identical configuration exit. -/
theorem c8_config_validation_witness :
    (∃ msg, update_vehicles none (some "90210") (some "50") envNetExn =
      .error (.exit msg)) ∧
      update_vehicles none (some "90210") (some "50") envNetExn =
        update_vehicles none (some "90210") (some "50") envAlwaysNew :=
  c8_config_validation none (some "90210") (some "50")
    envNetExn envAlwaysNew (Or.inl rfl)

/-- C9: `get_vehicles_query` is wrapped in `functools.cache`, so
within one run every call after the first returns the string computed
by the first call — the template with the zipcode, model and distance
substituted and the single lead-id UUID drawn on the first call — and
therefore every page request, across all pages and all WAF renewals,
shares that one query string unchanged. -/
theorem c9_query_cached (qe : QueryEnv) (n : ℕ) :
    (nthCall qe n).1 = (nthCall qe 0).1 ∧
      (nthCall qe n).1 = build_query qe := by
  have hstate : ∀ m, (nthCall qe m).2 = some (build_query qe) := by
    intro m
    induction m with
    | zero => rfl
    | succ m ih => simp [nthCall, ih, cacheStep]
  cases n with
  | zero => exact ⟨rfl, rfl⟩
  | succ n =>
    have h := hstate n
    constructor <;> simp [nthCall, h, cacheStep]

/-- C10: `format_options` joins with `" | "` the sorted set of
distinct names collected from the entries — each entry contributing
its truthy `marketingName`, else its truthy `marketingLongName`, else
nothing — so any two inputs holding the same entries (in any order,
with any duplication) format identically. -/
theorem c10_format_options_set (l1 l2 : List OptionEntry)
    (h : ∀ e, e ∈ l1 ↔ e ∈ l2) :
    format_options l1 = format_options l2 := by
  unfold format_options
  congr 1
  have h1 : ((selectedNames l1).dedup).Nodup := List.nodup_dedup _
  have h2 : ((selectedNames l2).dedup).Nodup := List.nodup_dedup _
  have hmem : ∀ x, x ∈ (selectedNames l1).dedup ↔ x ∈ (selectedNames l2).dedup := by
    intro x
    simp only [List.mem_dedup, selectedNames, List.mem_filterMap]
    constructor <;> rintro ⟨e, he, hn⟩
    · exact ⟨e, (h e).mp he, hn⟩
    · exact ⟨e, (h e).mpr he, hn⟩
  have hperm : List.Perm (selectedNames l1).dedup (selectedNames l2).dedup :=
    (List.perm_ext_iff_of_nodup h1 h2).mpr hmem
  unfold sortStrings
  refine List.eq_of_perm_of_sorted ?_
    (List.sorted_insertionSort _ _) (List.sorted_insertionSort _ _)
  exact ((List.perm_insertionSort _ _).trans hperm).trans
    (List.perm_insertionSort _ _).symm

/-- C10 witness: duplicating and permuting entries leaves the
formatted string unchanged. -/
theorem c10_format_options_set_witness :
    format_options [entA, ⟨none, some "B"⟩, entA] =
      format_options [⟨none, some "B"⟩, entA] :=
  c10_format_options_set [entA, ⟨none, some "B"⟩, entA]
    [⟨none, some "B"⟩, entA]
    (by intro e; simp [List.mem_cons]; tauto)

end SiennaGrabber
